import Mathlib

/-!
Verification development for the ZE29A-C2H5OH breath-alcohol sensor driver
(src/Alcolimetro_v1/src/main.cpp).

The C++ source is shallowly embedded: frames are lists of byte values
(`Nat`s below 256), C++ `int` arithmetic is `Int` (the sums involved, at
most 7 bytes, never overflow a 32-bit int), the conversion `(byte)e` is
reduction modulo 256, and the serial link is an explicit list of the bytes
that arrive before the read deadline.
-/

namespace Alcolimetro

/-- Status codes from the sensor documentation (main.cpp lines 18..24). -/
def STATUS_IDLE : Nat := 0x31

def STATUS_PREHEATING : Nat := 0x32

def STATUS_WAITING_FOR_BLOW : Nat := 0x33

def STATUS_BLOWING : Nat := 0x34

def STATUS_BLOW_INTERRUPTED : Nat := 0x35

def STATUS_CALCULATING : Nat := 0x36

def STATUS_READ_RESULT : Nat := 0x37

/-- Alarm status codes (main.cpp lines 27..29). -/
def ALARM_NONE : Nat := 0x00

def ALARM_DRINKING : Nat := 0x01

def ALARM_DRUNK : Nat := 0x02

/-- The C++ conversion `(byte)e` of an `int` expression: reduction modulo
256 (Lean's `Int.emod` by a positive modulus is non-negative, matching the
unsigned-char conversion). -/
def byteOfInt (x : Int) : Nat := (x % 256).toNat

/-- Bitwise NOT `~x` on a C++ `int`, two's complement: `-x - 1`. -/
def cppNot (x : Int) : Int := -x - 1

/-- Checksum derivation of `calcularChecksum` (main.cpp line 66):
`(byte)((-sum) + 1)`. -/
def chkNegPlusOne (sum : Nat) : Nat := byteOfInt (-(sum : Int) + 1)

/-- Checksum derivation used inline in `leerTiempoSoplado` (line 355) and
`configurarTiempoSoplado` (line 414): `(byte)((~sum) + 1)`. -/
def chkBitNot (sum : Nat) : Nat := byteOfInt (cppNot (sum : Int) + 1)

/-- Checksum derivation used inline in `cambiarEstado` (line 136):
`(byte)(~(sum & 0xFF) + 1)`.  The accumulated sum is non-negative, so the
`int` mask `sum & 0xFF` is the `Nat` mask. -/
def chkMaskedBitNot (sum : Nat) : Nat :=
byteOfInt (cppNot ((sum &&& 255 : Nat) : Int) + 1)

/-- `calcularChecksum` (main.cpp lines 61..67): sums the given bytes and
returns `(byte)((-sum) + 1)`.  (Dead code in the source: never called.) -/
def calcularChecksum (data : List Nat) : Nat := chkNegPlusOne data.sum

/-- Bytes 1..7 of a 9-byte frame, the ones the checksum loops run over
(`for (int i = 1; i < 8; i++)`). -/
def payloadBytes (f : List Nat) : List Nat := (f.drop 1).take 7

/-- The checksum byte of a 9-byte frame (index 8). -/
def checksumByte (f : List Nat) : Nat := f.getD 8 0

/-- A frame's checksum is arithmetically valid: payload sum plus checksum
byte vanishes modulo 256. -/
def checksumOK (f : List Nat) : Prop :=
((payloadBytes f).sum + checksumByte f) % 256 = 0

instance (f : List Nat) : Decidable (checksumOK f) := by
unfold checksumOK
infer_instance

/-- Modelled from the spec (§6): `checksum = ((0 - sum(bytes[1..7])) mod 256)`.
Used only to compare the code's checksums against the spec's formula. -/
def spec_checksum (p : List Nat) : Nat := byteOfInt (0 - (p.sum : Int))

/-- The command frame built by `cambiarEstado` (main.cpp lines 128..136):
bytes `FF 01 87 estado 00 00 00 00` plus the masked-bitwise-NOT checksum
of bytes 1..7. -/
def cambiarEstado_cmd (nuevoEstado : Nat) : List Nat :=
let base : List Nat := [0xFF, 0x01, 0x87, nuevoEstado, 0x00, 0x00, 0x00, 0x00]
base ++ [chkMaskedBitNot (base.drop 1).sum]

/-- The command frame built by `leerTiempoSoplado` (main.cpp lines 347..355):
bytes `FF 01 88 00 00 00 00 00` plus the bitwise-NOT checksum. -/
def leerTiempoSoplado_cmd : List Nat :=
let base : List Nat := [0xFF, 0x01, 0x88, 0x00, 0x00, 0x00, 0x00, 0x00]
base ++ [chkBitNot (base.drop 1).sum]

/-- The command frame built by `configurarTiempoSoplado` (main.cpp lines
406..414): bytes `FF 01 89 tiempo 00 00 00 00` plus the bitwise-NOT
checksum. -/
def configurarTiempoSoplado_cmd (nuevoTiempo : Nat) : List Nat :=
let base : List Nat := [0xFF, 0x01, 0x89, nuevoTiempo, 0x00, 0x00, 0x00, 0x00]
base ++ [chkBitNot (base.drop 1).sum]

/-- Hard-coded query-state frame (main.cpp lines 180, 268, 313). -/
def cmdEstado : List Nat := [0xFF, 0x01, 0x85, 0x00, 0x00, 0x00, 0x00, 0x00, 0x7A]

/-- Hard-coded read-result frame (main.cpp line 224). -/
def cmdLeerResultado : List Nat := [0xFF, 0x01, 0x86, 0x00, 0x00, 0x00, 0x00, 0x00, 0x79]

/-- Hard-coded read-thresholds frame (main.cpp line 295). -/
def cmdUmbral : List Nat := [0xFF, 0x01, 0x90, 0x00, 0x00, 0x00, 0x00, 0x00, 0x6F]

/-- Result of `leerRespuesta`: either a complete frame, or a timeout
carrying the bytes collected so far (the source prints their count; the
count is `received.length`, and the no-start-marker case is
`received = []`). -/
inductive ReadResult where
  | ok (frame : List Nat) : ReadResult
  | timeout (received : List Nat) : ReadResult
deriving DecidableEq, Repr

/-- The read loop of `leerRespuesta` (main.cpp lines 75..101), one step per
arriving byte.  Before the `0xFF` start marker is found every byte is
discarded; once found, every subsequent byte is stored at the next buffer
position, and the read succeeds as soon as `expectedLen` bytes (marker
included) are in the buffer.  The incoming list models the bytes that
arrive before the 3000 ms deadline; exhausting it is the timeout. -/
def leerRespuestaLoop (expectedLen : Nat) :
    List Nat → List Nat → Bool → ReadResult
  | [], buffer, _ => .timeout buffer
  | currentByte :: rest, buffer, startByteFound =>
    if startByteFound then
      if expectedLen ≤ (buffer ++ [currentByte]).length then
        .ok (buffer ++ [currentByte])
      else
        leerRespuestaLoop expectedLen rest (buffer ++ [currentByte]) true
    else if currentByte = 0xFF then
      leerRespuestaLoop expectedLen rest [currentByte] true
    else
      leerRespuestaLoop expectedLen rest buffer false

/-- `leerRespuesta` (main.cpp lines 69..110) on the byte sequence that
arrives before the deadline. -/
def leerRespuesta (expectedLen : Nat) (incoming : List Nat) : ReadResult :=
leerRespuestaLoop expectedLen incoming [] false

/-- The inline response check repeated in every command handler
(`response[0] == 0xFF && response[1] == code`); on success the handler
acts on the bytes from index 2 on.  No checksum test appears in the
source. -/
def decodeRespuesta (expectedEcho : Nat) (resp : List Nat) :
    Option (List Nat) :=
if resp.getD 0 0 = 0xFF ∧ resp.getD 1 0 = expectedEcho then
  some (resp.drop 2)
else none

/-- Mirrored session state: the globals `currentStatus` and
`resultAvailable` (main.cpp lines 32..33). -/
structure SessionState where
  currentStatus : Nat
  resultAvailable : Bool
deriving DecidableEq, Repr

/-- State update of `verificarEstado` (main.cpp lines 184..218): on a
complete frame with good start byte and echo `0x85`, adopt byte 2 as the
current status and raise `resultAvailable` when it is `STATUS_READ_RESULT`;
otherwise leave the state untouched. -/
def verificarEstado_update (st : SessionState) (r : ReadResult) : SessionState :=
match r with
| .ok resp =>
  if resp.getD 0 0 = 0xFF ∧ resp.getD 1 0 = 0x85 then
    { currentStatus := resp.getD 2 0,
      resultAvailable :=
        if resp.getD 2 0 = STATUS_READ_RESULT then true else st.resultAvailable }
  else st
| .timeout _ => st

/-- `verificarEstado` (main.cpp lines 179..221): transmit `cmdEstado`, read
a response, update the mirrored state. -/
def verificarEstado (incoming : List Nat) (st : SessionState) :
    List (List Nat) × SessionState :=
([cmdEstado], verificarEstado_update st (leerRespuesta 9 incoming))

/-- Outcome of a command round trip, matching the print branches of the
source handlers. -/
inductive CmdOutcome where
  | success : CmdOutcome
  | rejected : CmdOutcome
  | badResponse : CmdOutcome
  | noResponse : CmdOutcome
  | outOfRange : CmdOutcome
deriving DecidableEq, Repr

/-- `cambiarEstado` (main.cpp lines 123..177): transmit the change-state
frame, read the response, and classify it (`response[2] == 0x01` means the
change was accepted).  The mirrored session state is not modified. -/
def cambiarEstado (nuevoEstado : Nat) (incoming : List Nat) :
    List (List Nat) × CmdOutcome :=
([cambiarEstado_cmd nuevoEstado],
  match leerRespuesta 9 incoming with
  | .ok r =>
    if r.getD 0 0 = 0xFF ∧ r.getD 1 0 = 0x87 then
      if r.getD 2 0 = 0x01 then .success else .rejected
    else .badResponse
  | .timeout _ => .noResponse)

/-- `configurarTiempoSoplado` (main.cpp lines 395..452): reject a blow time
outside 1..10 before building any frame (lines 396..399); otherwise
transmit the frame and classify the response. -/
def configurarTiempoSoplado (nuevoTiempo : Nat) (incoming : List Nat) :
    List (List Nat) × CmdOutcome :=
if nuevoTiempo < 1 ∨ 10 < nuevoTiempo then ([], .outOfRange)
else
  ([configurarTiempoSoplado_cmd nuevoTiempo],
    match leerRespuesta 9 incoming with
    | .ok r =>
      if r.getD 0 0 = 0xFF ∧ r.getD 1 0 = 0x89 then
        if r.getD 2 0 = 0x01 then .success else .rejected
      else .badResponse
    | .timeout _ => .noResponse)

/-- Alarm classification printed by `leerResultado` (main.cpp lines
240..253). -/
inductive AlarmLevel where
  | none : AlarmLevel
  | drinking : AlarmLevel
  | drunk : AlarmLevel
  | unknown (code : Nat) : AlarmLevel
deriving DecidableEq, Repr

/-- The `switch (alarmStatus)` of `leerResultado`. -/
def alarmLevelOf (code : Nat) : AlarmLevel :=
if code = ALARM_NONE then .none
else if code = ALARM_DRINKING then .drinking
else if code = ALARM_DRUNK then .drunk
else .unknown code

/-- Decoding step of `leerResultado` (main.cpp lines 228..253): on good
start byte and echo `0x86`, the concentration is
`(response[2] << 8) | response[3]` and the alarm level comes from
`response[7]`. -/
def leerResultado_decode (resp : List Nat) : Option (Nat × AlarmLevel) :=
if resp.getD 0 0 = 0xFF ∧ resp.getD 1 0 = 0x86 then
  some ((resp.getD 2 0) <<< 8 ||| resp.getD 3 0, alarmLevelOf (resp.getD 7 0))
else none

/-- `esperarEstado` (main.cpp lines 39..47): poll `verificarEstado` until
the mirrored status equals the desired one or the time budget runs out.
Each list entry of `env` is the byte stream answering one poll; exhausting
`env` models the `timeoutMs` deadline.  Returns the transmitted frames,
the final state, and the unconsumed environment. -/
def esperarEstado (estadoDeseado : Nat) :
    List (List Nat) → SessionState →
    List (List Nat) × SessionState × List (List Nat)
  | [], st => ([], st, [])
  | inc :: rest, st =>
    let r := verificarEstado inc st
    if r.2.currentStatus = estadoDeseado then (r.1, r.2, rest)
    else
      let r2 := esperarEstado estadoDeseado rest r.2
      (r.1 ++ r2.1, r2.2.1, r2.2.2)

/-- The initial status re-query of `iniciarPrueba` (main.cpp lines
268..278): send `cmdEstado`, and on a well-echoed complete frame adopt
byte 2 as `currentStatus` (this path does not touch `resultAvailable`). -/
def iniciarPrueba_status1 (inc : List Nat) (st : SessionState) : SessionState :=
match leerRespuesta 9 inc with
| .ok r =>
  if r.getD 0 0 = 0xFF ∧ r.getD 1 0 = 0x85 then
    { st with currentStatus := r.getD 2 0 }
  else st
| .timeout _ => st

/-- `iniciarPrueba` (main.cpp lines 262..292): re-query the status, then
only from `STATUS_IDLE` or `STATUS_READ_RESULT` wait for idle and issue the
change to `STATUS_PREHEATING`; from any other status print an error and
return.  `env` lists the response byte streams for the successive reads;
the returned `Bool` tells whether the test was started (the gate passed). -/
def iniciarPrueba (env : List (List Nat)) (st : SessionState) :
    List (List Nat) × SessionState × Bool :=
let st1 := iniciarPrueba_status1 (env.headD []) st
if st1.currentStatus = STATUS_IDLE ∨ st1.currentStatus = STATUS_READ_RESULT then
  let w := esperarEstado STATUS_IDLE env.tail st1
  let c := cambiarEstado STATUS_PREHEATING (w.2.2.headD [])
  ([cmdEstado] ++ w.1 ++ c.1, w.2.1, true)
else
  ([cmdEstado], st1, false)

/-! ### Checksum lemmas -/

theorem and_255_eq_mod (s : Nat) : s &&& 255 = s % 256 := by
have h := Nat.and_pow_two_sub_one_eq_mod s 8
norm_num at h
exact h

theorem chkBitNot_eq_neg (s : Nat) : chkBitNot s = byteOfInt (0 - (s : Int)) := by
unfold chkBitNot cppNot byteOfInt
congr 1
ring_nf

theorem chkMaskedBitNot_eq_neg (s : Nat) :
    chkMaskedBitNot s = byteOfInt (0 - (s : Int)) := by
unfold chkMaskedBitNot cppNot byteOfInt
rw [and_255_eq_mod]
congr 1
push_cast
omega

theorem add_neg_checksum_mod (s : Nat) :
    (s + byteOfInt (0 - (s : Int))) % 256 = 0 := by
unfold byteOfInt
omega

theorem cambiarEstado_cmd_eq (estado : Nat) :
    cambiarEstado_cmd estado =
      [0xFF, 0x01, 0x87, estado, 0x00, 0x00, 0x00, 0x00,
        chkMaskedBitNot (0x88 + estado)] := by
simp only [cambiarEstado_cmd, List.drop, List.sum_cons, List.sum_nil,
  List.cons_append, List.nil_append, List.cons.injEq, true_and, and_true]
congr 1
omega

theorem configurarTiempoSoplado_cmd_eq (t : Nat) :
    configurarTiempoSoplado_cmd t =
      [0xFF, 0x01, 0x89, t, 0x00, 0x00, 0x00, 0x00,
        chkBitNot (0x8A + t)] := by
simp only [configurarTiempoSoplado_cmd, List.drop, List.sum_cons, List.sum_nil,
  List.cons_append, List.nil_append, List.cons.injEq, true_and, and_true]
congr 1
omega

theorem frame_checksum_spec (b1 b2 b3 b4 b5 b6 b7 c : Nat)
    (hc : c = byteOfInt (0 - ((b1 + b2 + b3 + b4 + b5 + b6 + b7 : Nat) : Int))) :
    checksumByte [0xFF, b1, b2, b3, b4, b5, b6, b7, c] =
      spec_checksum (payloadBytes [0xFF, b1, b2, b3, b4, b5, b6, b7, c]) ∧
    checksumOK [0xFF, b1, b2, b3, b4, b5, b6, b7, c] := by
subst hc
simp only [checksumOK, checksumByte, spec_checksum, payloadBytes, byteOfInt,
  List.drop, List.take, List.sum_cons, List.sum_nil,
  List.getD_cons_succ, List.getD_cons_zero]
constructor
· omega
· omega

/-- Claim C1: the checksum byte of every frame the program transmits — the
frames built inline by `cambiarEstado`, `configurarTiempoSoplado` and
`leerTiempoSoplado`, and the hard-coded `cmdEstado`, `cmdLeerResultado` and
`cmdUmbral` — equals the spec's `((0 - sum(bytes[1..7])) mod 256)`, and
therefore payload sum plus checksum vanishes modulo 256. -/
theorem checksum_outbound_spec (estado t : Nat) (_hestado : estado < 256)
    (_ht1 : 1 ≤ t) (_ht2 : t ≤ 10) :
    (checksumByte (cambiarEstado_cmd estado) =
        spec_checksum (payloadBytes (cambiarEstado_cmd estado)) ∧
      checksumOK (cambiarEstado_cmd estado)) ∧
    (checksumByte (configurarTiempoSoplado_cmd t) =
        spec_checksum (payloadBytes (configurarTiempoSoplado_cmd t)) ∧
      checksumOK (configurarTiempoSoplado_cmd t)) ∧
    (checksumByte leerTiempoSoplado_cmd =
        spec_checksum (payloadBytes leerTiempoSoplado_cmd) ∧
      checksumOK leerTiempoSoplado_cmd) ∧
    (checksumByte cmdEstado = spec_checksum (payloadBytes cmdEstado) ∧
      checksumOK cmdEstado) ∧
    (checksumByte cmdLeerResultado =
        spec_checksum (payloadBytes cmdLeerResultado) ∧
      checksumOK cmdLeerResultado) ∧
    (checksumByte cmdUmbral = spec_checksum (payloadBytes cmdUmbral) ∧
      checksumOK cmdUmbral) := by
refine ⟨?_, ?_, by decide, by decide, by decide, by decide⟩
· rw [cambiarEstado_cmd_eq]
  refine frame_checksum_spec 0x01 0x87 estado 0 0 0 0 _ ?_
  rw [chkMaskedBitNot_eq_neg]
  unfold byteOfInt
  omega
· rw [configurarTiempoSoplado_cmd_eq]
  refine frame_checksum_spec 0x01 0x89 t 0 0 0 0 _ ?_
  rw [chkBitNot_eq_neg]
  unfold byteOfInt
  omega

/-- Witness for C1 at `estado = 0x32`, `t = 7`. -/
theorem checksum_outbound_spec_witness :
    checksumOK (cambiarEstado_cmd 0x32) ∧
    checksumOK (configurarTiempoSoplado_cmd 7) :=
⟨(checksum_outbound_spec 0x32 7 (by decide) (by decide) (by decide)).1.2,
  (checksum_outbound_spec 0x32 7 (by decide) (by decide) (by decide)).2.1.2⟩

/-- Claim C3 (counterexample): on the query-state payload the
`calcularChecksum` derivation `(byte)((-sum) + 1)` yields `0x7B`, while the
two bitwise-NOT derivations yield `0x7A` (the byte hard-coded in
`cmdEstado`), so the three derivations are not all equal. -/
theorem checksum_variants_differ_cex :
    calcularChecksum [0x01, 0x85, 0x00, 0x00, 0x00, 0x00, 0x00] = 0x7B ∧
    chkBitNot (List.sum [0x01, 0x85, 0x00, 0x00, 0x00, 0x00, 0x00]) = 0x7A ∧
    chkMaskedBitNot (List.sum [0x01, 0x85, 0x00, 0x00, 0x00, 0x00, 0x00]) = 0x7A ∧
    calcularChecksum [0x01, 0x85, 0x00, 0x00, 0x00, 0x00, 0x00] ≠
      chkBitNot (List.sum [0x01, 0x85, 0x00, 0x00, 0x00, 0x00, 0x00]) := by
decide

/-- Claim C3 (amended): the `(~sum) + 1` and `~(sum & 0xFF) + 1` derivations
agree on every sum, while `calcularChecksum`'s `(-sum) + 1` is off by one
from them (it equals their value plus one, modulo 256). -/
theorem checksum_variants_relation (s : Nat) :
    chkBitNot s = chkMaskedBitNot s ∧
    chkNegPlusOne s = (chkBitNot s + 1) % 256 := by
rw [chkBitNot_eq_neg, chkMaskedBitNot_eq_neg]
unfold chkNegPlusOne byteOfInt
constructor
· rfl
· omega

/-- Claim C4 (counterexample): the frame built for blow time 7 does not end
in the spec's claimed checksum byte `0x68`. -/
theorem writeBlowTime7_cex :
    configurarTiempoSoplado_cmd 7 ≠
      [0xFF, 0x01, 0x89, 0x07, 0x00, 0x00, 0x00, 0x00, 0x68] := by
decide

/-- Claim C4 (amended): the request frame for blow time 7 is exactly
`FF 01 89 07 00 00 00 00 6F` (the sum `0x01 + 0x89 + 0x07 = 0x91` gives
checksum `0x6F`), and the checksum-correct response
`FF 89 01 00 00 00 00 00 76` decodes as success. -/
theorem writeBlowTime7_frame :
    configurarTiempoSoplado_cmd 7 =
      [0xFF, 0x01, 0x89, 0x07, 0x00, 0x00, 0x00, 0x00, 0x6F] ∧
    checksumOK [0xFF, 0x89, 0x01, 0x00, 0x00, 0x00, 0x00, 0x00, 0x76] ∧
    configurarTiempoSoplado 7 [0xFF, 0x89, 0x01, 0x00, 0x00, 0x00, 0x00, 0x00, 0x76] =
      ([configurarTiempoSoplado_cmd 7], .success) := by
refine ⟨by decide, by decide, ?_⟩
decide

/-! ### Transport-reader lemmas -/

theorem leerRespuestaLoop_skip (E : Nat) (g : List Nat) :
    ∀ rest : List Nat, (∀ b ∈ g, b ≠ 0xFF) →
    leerRespuestaLoop E (g ++ rest) [] false = leerRespuestaLoop E rest [] false := by
induction g with
| nil => intro rest _; rfl
| cons a g ih =>
  intro rest hg
  have ha : a ≠ 0xFF := hg a (List.mem_cons_self a g)
  have hg' : ∀ b ∈ g, b ≠ 0xFF := fun b hb => hg b (List.mem_cons_of_mem a hb)
  simp only [List.cons_append, leerRespuestaLoop, Bool.false_eq_true, if_neg ha,
    ite_false]
  exact ih rest hg'

theorem leerRespuestaLoop_fill (E : Nat) (bs : List Nat) :
    ∀ rest buf : List Nat, buf.length < E → E ≤ buf.length + bs.length →
    leerRespuestaLoop E (bs ++ rest) buf true =
      .ok (buf ++ bs.take (E - buf.length)) := by
induction bs with
| nil => intro rest buf h1 h2; simp at h2; omega
| cons b bs ih =>
  intro rest buf h1 h2
  simp only [List.cons_append, leerRespuestaLoop, if_true, List.append_eq]
  by_cases hE : E ≤ (buf ++ [b]).length
  · rw [if_pos hE]
    have hlen : E - buf.length = 1 := by
      simp only [List.length_append, List.length_cons, List.length_nil] at hE ⊢
      omega
    rw [hlen]
    simp [List.take]
  · rw [if_neg hE]
    simp only [List.length_append, List.length_cons, List.length_nil] at hE
    have h1' : (buf ++ [b]).length < E := by
      simp only [List.length_append, List.length_cons, List.length_nil]
      omega
    have h2' : E ≤ (buf ++ [b]).length + bs.length := by
      simp only [List.length_append, List.length_cons, List.length_nil]
      simp only [List.length_cons] at h2
      omega
    rw [ih rest (buf ++ [b]) h1' h2']
    have hsucc : E - buf.length = (E - (buf.length + 1)) + 1 := by omega
    rw [hsucc, List.take_succ_cons, List.append_assoc]
    simp only [List.length_append, List.length_cons, List.length_nil,
      List.cons_append, List.nil_append]

theorem leerRespuestaLoop_timeout_fill (E : Nat) (bs : List Nat) :
    ∀ buf : List Nat, buf.length + bs.length < E →
    leerRespuestaLoop E bs buf true = .timeout (buf ++ bs) := by
induction bs with
| nil => intro buf _; simp [leerRespuestaLoop]
| cons b bs ih =>
  intro buf h
  simp only [List.length_cons] at h
  have hE : ¬ E ≤ (buf ++ [b]).length := by
    simp only [List.length_append, List.length_cons, List.length_nil]
    omega
  simp only [leerRespuestaLoop, if_true, if_neg hE]
  have h' : (buf ++ [b]).length + bs.length < E := by
    simp only [List.length_append, List.length_cons, List.length_nil]
    omega
  rw [ih (buf ++ [b]) h']
  rw [List.append_assoc]
  rfl

theorem leerRespuestaLoop_timeout_grows (E : Nat) (inc : List Nat) :
    ∀ buf out : List Nat, leerRespuestaLoop E inc buf true = .timeout out →
    buf.length ≤ out.length := by
induction inc with
| nil =>
  intro buf out h
  simp only [leerRespuestaLoop] at h
  cases h
  exact Nat.le_refl _
| cons b inc ih =>
  intro buf out h
  simp only [leerRespuestaLoop, if_true] at h
  by_cases hE : E ≤ (buf ++ [b]).length
  · rw [if_pos hE] at h
    cases h
  · rw [if_neg hE] at h
    have := ih (buf ++ [b]) out h
    simp only [List.length_append, List.length_cons, List.length_nil] at this
    omega

theorem leerRespuestaLoop_noMarker_empty (E : Nat) (inc : List Nat) :
    ∀ out : List Nat, leerRespuestaLoop E inc [] false = .timeout out →
    (out = [] ↔ 0xFF ∉ inc) := by
induction inc with
| nil =>
  intro out h
  simp only [leerRespuestaLoop] at h
  cases h
  simp
| cons b inc ih =>
  intro out h
  by_cases hb : b = 0xFF
  · subst hb
    simp only [leerRespuestaLoop, Bool.false_eq_true, ite_false, if_pos rfl] at h
    have hlen := leerRespuestaLoop_timeout_grows E inc [0xFF] out h
    simp only [List.length_cons, List.length_nil] at hlen
    constructor
    · intro hout; rw [hout] at hlen; simp at hlen
    · intro hmem; exact absurd (List.mem_cons_self _ _) hmem
  · simp only [leerRespuestaLoop, Bool.false_eq_true, ite_false, if_neg hb] at h
    rw [ih out h]
    constructor
    · intro hnot hmem
      rcases List.mem_cons.mp hmem with h255 | h255
      · exact hb h255.symm
      · exact hnot h255
    · intro hnot hmem
      exact hnot (List.mem_cons_of_mem b hmem)

theorem leerRespuestaLoop_marker_step (E : Nat) (rest : List Nat) :
    leerRespuestaLoop E (0xFF :: rest) [] false =
      leerRespuestaLoop E rest [0xFF] true := rfl

/-- Claim C6: the reader discards every byte before the first `0xFF` start
marker; leading garbage followed by a full 9-byte frame (marker included)
delivered within the timeout yields a successful read of exactly those
9 bytes. -/
theorem leerRespuesta_resync (g bs : List Nat) (hg : ∀ b ∈ g, b ≠ 0xFF)
    (hlen : bs.length = 8) :
    leerRespuesta 9 (g ++ 0xFF :: bs) = .ok (0xFF :: bs) := by
unfold leerRespuesta
rw [leerRespuestaLoop_skip 9 g (0xFF :: bs) hg]
simp only [leerRespuestaLoop, Bool.false_eq_true, ite_false, if_pos rfl]
have h := leerRespuestaLoop_fill 9 bs [] [0xFF] (by simp) (by simp [hlen])
rw [List.append_nil] at h
rw [h]
simp only [List.length_cons, List.length_nil]
rw [show 9 - 1 = 8 from rfl, ← hlen, List.take_length]
rfl

/-- Witness for C6: two garbage bytes, then a full frame. -/
theorem leerRespuesta_resync_witness :
    leerRespuesta 9 ([0x12, 0x34] ++ 0xFF :: [1, 2, 3, 4, 5, 6, 7, 8]) =
      .ok (0xFF :: [1, 2, 3, 4, 5, 6, 7, 8]) :=
leerRespuesta_resync [0x12, 0x34] [1, 2, 3, 4, 5, 6, 7, 8] (by decide) (by decide)

/-- Claim C7: a read that times out is classified by whether a start marker
was observed — the collected bytes are empty exactly when no `0xFF` ever
arrived (the no-data case); a marker plus four bytes then silence times out
with exactly those five bytes collected. -/
theorem leerRespuesta_timeout_classified :
    (∀ incoming out : List Nat, leerRespuesta 9 incoming = .timeout out →
      (out = [] ↔ 0xFF ∉ incoming)) ∧
    (∀ g bs : List Nat, (∀ b ∈ g, b ≠ 0xFF) → bs.length = 4 →
      leerRespuesta 9 (g ++ 0xFF :: bs) = .timeout (0xFF :: bs) ∧
      (0xFF :: bs).length = 5) ∧
    (∀ g : List Nat, (∀ b ∈ g, b ≠ 0xFF) →
      leerRespuesta 9 g = .timeout []) := by
refine ⟨?_, ?_, ?_⟩
· intro incoming out h
  exact leerRespuestaLoop_noMarker_empty 9 incoming out h
· intro g bs hg hlen
  constructor
  · unfold leerRespuesta
    rw [leerRespuestaLoop_skip 9 g (0xFF :: bs) hg]
    simp only [leerRespuestaLoop, Bool.false_eq_true, ite_false, if_pos rfl]
    have h := leerRespuestaLoop_timeout_fill 9 bs [0xFF] (by simp [hlen])
    rw [h]
    rfl
  · simp [hlen]
· intro g hg
  unfold leerRespuesta
  have h := leerRespuestaLoop_skip 9 g [] hg
  rw [List.append_nil] at h
  rw [h]
  rfl

/-- Witness for C7: marker plus four bytes then silence gives a partial
timeout with five collected bytes; pure garbage gives the no-data case. -/
theorem leerRespuesta_timeout_classified_witness :
    leerRespuesta 9 ([7, 8] ++ 0xFF :: [1, 2, 3, 4]) = .timeout (0xFF :: [1, 2, 3, 4]) ∧
    leerRespuesta 9 [7, 8] = .timeout [] :=
⟨(leerRespuesta_timeout_classified.2.1 [7, 8] [1, 2, 3, 4] (by decide) (by decide)).1,
  leerRespuesta_timeout_classified.2.2 [7, 8] (by decide)⟩

/-- Claim C10: once a `0xFF` byte has been accepted as the start marker the
reader stores every following byte — further `0xFF` bytes included — as
frame data and never re-synchronizes mid-frame; a spurious `0xFF` right
before the true frame therefore shifts the true frame's bytes inside the
9-byte buffer. -/
theorem leerRespuesta_no_midframe_resync :
    (∀ bs : List Nat, bs.length = 8 →
      leerRespuesta 9 (0xFF :: bs) = .ok (0xFF :: bs)) ∧
    (∀ g rest : List Nat, (∀ b ∈ g, b ≠ 0xFF) → rest.length = 8 →
      leerRespuesta 9 (g ++ 0xFF :: 0xFF :: rest) =
        .ok (0xFF :: 0xFF :: rest.take 7)) := by
constructor
· intro bs hlen
  have h := leerRespuesta_resync [] bs (by simp) hlen
  rw [List.nil_append] at h
  exact h
· intro g rest hg hlen
  unfold leerRespuesta
  rw [leerRespuestaLoop_skip 9 g (0xFF :: 0xFF :: rest) hg]
  rw [leerRespuestaLoop_marker_step 9 (0xFF :: rest)]
  have h := leerRespuestaLoop_fill 9 (0xFF :: rest) [] [0xFF] (by simp)
    (by simp [hlen])
  rw [List.append_nil] at h
  rw [h]
  simp only [List.length_cons, List.length_nil]
  rw [show 9 - 1 = 8 from rfl, show (8 : Nat) = 7 + 1 from rfl, List.take_succ_cons]
  rfl

/-- Witness for C10: a spurious marker shifts the true frame's bytes. -/
theorem leerRespuesta_no_midframe_resync_witness :
    leerRespuesta 9 ([0x42] ++ 0xFF :: 0xFF :: [9, 8, 7, 6, 5, 4, 3, 2]) =
      .ok (0xFF :: 0xFF :: List.take 7 [9, 8, 7, 6, 5, 4, 3, 2]) :=
leerRespuesta_no_midframe_resync.2 [0x42] [9, 8, 7, 6, 5, 4, 3, 2]
  (by decide) (by decide)

/-- Claim C2 (counterexample): the frame `FF 85 31 00 00 00 00 00 00` fails
the checksum (its valid checksum byte would be `0x4A`), yet the inline
decode accepts it and `verificarEstado` adopts its payload byte `0x31` as
the current status — received checksums are never verified. -/
theorem decode_checksum_not_verified_cex :
    ¬ checksumOK [0xFF, 0x85, 0x31, 0x00, 0x00, 0x00, 0x00, 0x00, 0x00] ∧
    decodeRespuesta 0x85 [0xFF, 0x85, 0x31, 0x00, 0x00, 0x00, 0x00, 0x00, 0x00] =
      some [0x31, 0x00, 0x00, 0x00, 0x00, 0x00, 0x00] ∧
    (verificarEstado [0xFF, 0x85, 0x31, 0x00, 0x00, 0x00, 0x00, 0x00, 0x00]
        { currentStatus := 0x99, resultAvailable := false }).2 =
      { currentStatus := 0x31, resultAvailable := false } := by
decide

/-- Claim C2 (amended): the decoding step verifies exactly the start byte
and the command echo; a frame failing either check is rejected and its
payload is never acted upon (the mirrored state is left untouched). -/
theorem decode_start_echo_only (echo : Nat) (resp : List Nat)
    (h : ¬ (resp.getD 0 0 = 0xFF ∧ resp.getD 1 0 = echo)) :
    decodeRespuesta echo resp = none ∧
    ((decodeRespuesta echo resp).isSome ↔
      (resp.getD 0 0 = 0xFF ∧ resp.getD 1 0 = echo)) ∧
    (echo = 0x85 → ∀ st : SessionState, verificarEstado_update st (.ok resp) = st) := by
refine ⟨?_, ?_, ?_⟩
· unfold decodeRespuesta
  rw [if_neg h]
· unfold decodeRespuesta
  rw [if_neg h]
  simp only [Option.isSome_none, Bool.false_eq_true, false_iff]
  exact h
· intro hecho st
  subst hecho
  simp only [verificarEstado_update]
  rw [if_neg h]

/-- Witness for C2 (amended): a frame with a wrong echo byte is rejected
and the session state is unchanged. -/
theorem decode_start_echo_only_witness :
    decodeRespuesta 0x85 [0xFF, 0x87, 0x31, 0x00, 0x00, 0x00, 0x00, 0x00, 0x00] = none ∧
    verificarEstado_update { currentStatus := 0x31, resultAvailable := false }
      (.ok [0xFF, 0x87, 0x31, 0x00, 0x00, 0x00, 0x00, 0x00, 0x00]) =
      { currentStatus := 0x31, resultAvailable := false } :=
⟨(decode_start_echo_only 0x85 [0xFF, 0x87, 0x31, 0x00, 0x00, 0x00, 0x00, 0x00, 0x00]
    (by decide)).1,
  (decode_start_echo_only 0x85 [0xFF, 0x87, 0x31, 0x00, 0x00, 0x00, 0x00, 0x00, 0x00]
    (by decide)).2.2 rfl { currentStatus := 0x31, resultAvailable := false }⟩

/-- Claim C5 (counterexample): `iniciarPrueba` called with the mirrored
state `Blowing` (and the pre-check query timing out, leaving it `Blowing`)
does fail, but it has already transmitted the 9-byte query-state frame —
the claim that no bytes at all are written is false. -/
theorem iniciarPrueba_transmits_cex :
    (iniciarPrueba [] { currentStatus := STATUS_BLOWING, resultAvailable := false }).1 =
      [cmdEstado] ∧
    cmdEstado ≠ ([] : List Nat) ∧
    (iniciarPrueba [] { currentStatus := STATUS_BLOWING, resultAvailable := false }).2.2 =
      false := by
decide

/-- Claim C5 (amended): when the status mirrored after `iniciarPrueba`'s
initial re-query is `Blowing`, the call fails (the test is not started) and
no ChangeState frame (command byte `0x87`) is issued; the only transmission
is the single query-state frame of the pre-check. -/
theorem iniciarPrueba_blowing_no_changeState (env : List (List Nat))
    (st : SessionState)
    (h : (iniciarPrueba_status1 (env.headD []) st).currentStatus = STATUS_BLOWING) :
    iniciarPrueba env st =
      ([cmdEstado], iniciarPrueba_status1 (env.headD []) st, false) ∧
    ∀ f ∈ (iniciarPrueba env st).1, f.getD 2 0 ≠ 0x87 := by
have hgate : ¬ ((iniciarPrueba_status1 (env.headD []) st).currentStatus = STATUS_IDLE ∨
    (iniciarPrueba_status1 (env.headD []) st).currentStatus = STATUS_READ_RESULT) := by
  rw [h]
  decide
have heq : iniciarPrueba env st =
    ([cmdEstado], iniciarPrueba_status1 (env.headD []) st, false) := by
  simp only [iniciarPrueba]
  rw [if_neg hgate]
refine ⟨heq, ?_⟩
rw [heq]
intro f hf
have hf' : f = cmdEstado := List.mem_singleton.mp hf
subst hf'
decide

/-- Witness for C5 (amended): empty environment, mirrored state Blowing. -/
theorem iniciarPrueba_blowing_no_changeState_witness :
    iniciarPrueba [] { currentStatus := STATUS_BLOWING, resultAvailable := false } =
      ([cmdEstado], { currentStatus := STATUS_BLOWING, resultAvailable := false },
        false) :=
(iniciarPrueba_blowing_no_changeState []
  { currentStatus := STATUS_BLOWING, resultAvailable := false } (by decide)).1

/-- Claim C8: `configurarTiempoSoplado` checks `1 ≤ seconds ≤ 10` before
building any frame; every out-of-range input fails locally as a validation
error and transmits nothing. -/
theorem configurarTiempoSoplado_validates (t : Nat) (inc : List Nat)
    (h : t < 1 ∨ 10 < t) :
    configurarTiempoSoplado t inc = ([], .outOfRange) := by
unfold configurarTiempoSoplado
rw [if_pos h]

/-- Witness for C8 at the out-of-range value 11. -/
theorem configurarTiempoSoplado_validates_witness :
    configurarTiempoSoplado 11 [] = ([], .outOfRange) :=
configurarTiempoSoplado_validates 11 [] (by decide)

/-- Claim C9: an accepted read-result response decodes the concentration as
the big-endian 16-bit value of bytes 2 and 3 and the alarm level from
byte 7; in particular bytes `[2,3] = [0x00,0x32]` with byte 7 `= 0x01`
decode to 50 mg/100ml and `AlarmLevel.drinking`. -/
theorem leerResultado_bigendian (resp : List Nat)
    (hb3 : resp.getD 3 0 < 256)
    (h0 : resp.getD 0 0 = 0xFF) (h1 : resp.getD 1 0 = 0x86) :
    leerResultado_decode resp =
      some (256 * resp.getD 2 0 + resp.getD 3 0, alarmLevelOf (resp.getD 7 0)) ∧
    leerResultado_decode [0xFF, 0x86, 0x00, 0x32, 0x00, 0x00, 0x00, 0x01, 0x47] =
      some (50, .drinking) := by
constructor
· unfold leerResultado_decode
  rw [if_pos ⟨h0, h1⟩]
  have key : resp.getD 2 0 <<< 8 ||| resp.getD 3 0 =
      256 * resp.getD 2 0 + resp.getD 3 0 := by
    rw [Nat.shiftLeft_eq, Nat.mul_comm]
    exact (Nat.mul_add_lt_is_or hb3 (resp.getD 2 0)).symm
  rw [key]
· decide

/-- Witness for C9 on the spec's concrete result frame. -/
theorem leerResultado_bigendian_witness :
    leerResultado_decode [0xFF, 0x86, 0x00, 0x32, 0x00, 0x00, 0x00, 0x01, 0x47] =
      some (50, .drinking) :=
(leerResultado_bigendian [0xFF, 0x86, 0x00, 0x32, 0x00, 0x00, 0x00, 0x01, 0x47]
  (by decide) (by decide) (by decide)).2

end Alcolimetro
